import Mathlib

/- Shallow embedding of the tiered conversation-memory subsystem of this
repository, for one fixed (user_id, conversation_id) pair:
  - src/app/memory_manager.py, class MemoryManager: add_message,
    _update_short_term_memory, _generate_slider_summary,
    _generate_long_term_memory, get_context_for_search,
    save_short_term_on_logout, load_short_term_on_login,
    clear_redis_on_logout;
  - src/app/agent.py: process_conversation;
  - src/app/main.py: logout_endpoint.
Redis lists and scalars and the three MongoDB collections become fields of
one explicit state record.  Messages are stored in Redis as JSON strings and
decoded on read; serialization round-trips, so the embedding keeps Turn
values directly.  Every store primitive that can raise gets a Boolean (or
Option Nat, for a raise inside a push loop) fault switch in a Faults record;
the LLM collaborator becomes a function String to Option String where none
models a raised exception.  Python try/except blocks become the
corresponding early returns. -/

/-- A chat message: models.Message (role, content, timestamp).  Timestamps
are abstracted to Nat instants. -/
structure Turn where
  role : String
  content : String
  timestamp : Nat
deriving DecidableEq

/-- ASCII whitespace stripped by the Python str.strip default. -/
def isPySpace (c : Char) : Bool :=
  c == ' ' || c == '\t' || c == '\n' || c == '\r' ||
    c == Char.ofNat 11 || c == Char.ofNat 12

/-- Python str.strip(): drop whitespace from both ends. -/
def pyStrip (s : String) : String :=
  String.mk (((s.toList.dropWhile isPySpace).reverse.dropWhile isPySpace).reverse)

/-- One conversation line, memory_manager.py lines 127 and 172:
role colon space content. -/
def formatTurn (t : Turn) : String :=
  t.role ++ ": " ++ t.content

/-- The summarization prompt of memory_manager.py lines 138-142. -/
def sliderPrompt (conversation_text : List String) : String :=
  "Summarize the following conversation in 2-3 sentences, focusing on the key topics and important information:\n\n"
    ++ String.intercalate "\n" conversation_text ++ "\n\nSummary:"

/-- The extraction prompt of memory_manager.py lines 183-194. -/
def longTermPrompt (conversation_text : List String) : String :=
  "Extract exactly 5 key points from the following conversation. Focus on important information, preferences, facts, and context that would be useful to remember for future conversations.\n\n"
    ++ String.intercalate "\n" conversation_text
    ++ "\n\nPlease provide exactly 5 key points in the following format:\n- Point 1\n- Point 2  \n- Point 3\n- Point 4\n- Point 5\n\nKey Points:"

/-- Combined state of the two stores for one (user_id, conversation_id):
Redis keys chat_history (newest-first list), short_term (oldest-first list),
slider_summary (absent key = none), long_term (user-scoped list),
message_count (absent key counts as 0, incr starts at 1); MongoDB
collections chat_history, long_term_memory (batches of key_points) and
short_term_memory (one upserted row per user and conversation). -/
structure Sys where
  chat_history : List Turn
  short_term : List Turn
  slider_summary : Option String
  long_term : List String
  message_count : Nat
  mongo_chat : List Turn
  mongo_long : List (List String)
  mongo_snapshot : Option (List Turn × String)
deriving DecidableEq

/-- Fault switches, one per store primitive call site that can raise.  A
Bool field set true makes that call raise; an Option Nat field some k makes
the k-th push of the surrounding loop raise (no raise if k is at least the
number of pushes). -/
structure Faults where
  mongoInsertChat : Bool := false
  lpushChat : Bool := false
  ltrimChat : Bool := false
  stLrange : Bool := false
  stDelete : Bool := false
  stRpush : Option Nat := none
  countIncr : Bool := false
  slLrange : Bool := false
  slSet : Bool := false
  ltLrange : Bool := false
  ltRpush : Option Nat := none
  ltMongoInsert : Bool := false
  ctxShortLrange : Bool := false
  ctxSummaryGet : Bool := false
  ctxLongLrange : Bool := false
  ctxChatLrange : Bool := false
  saveLrange : Bool := false
  saveSummaryGet : Bool := false
  saveUpsert : Bool := false
  loginFind : Bool := false
  loginDelete : Bool := false
  loginRpush : Option Nat := none
  loginSet : Bool := false
  clearFailAt : Option Nat := none
deriving DecidableEq

/-- Environment of one call: the LLM collaborator (none = the call raised)
and the fault switches. -/
structure Env where
  summarize : String → Option String
  extract : String → Option String
  faults : Faults := {}

/-- Environment with no faults and total collaborators. -/
def okEnv (su ex : String → String) : Env :=
  { summarize := fun p => some (su p), extract := fun p => some (ex p) }

/-- A loop of rpush calls appending xs after tail, where the push at index
fault (when within range) raises: the result list and whether a raise
occurred. -/
def rpushAll (fault : Option Nat) (tail xs : List String) : List String × Bool :=
  match fault with
  | none => (tail ++ xs, false)
  | some k => if k < xs.length then (tail ++ xs.take k, true) else (tail ++ xs, false)

/-- memory_manager._update_short_term_memory (lines 94-109): lrange 0 3 of
the newest-first Redis chat buffer, delete the short-term key, rpush the
four messages in reversed (oldest-first) order.  The whole body is wrapped
in try/except that logs and swallows, so a raise leaves the remaining steps
undone and propagates nothing. -/
def update_short_term_memory (e : Env) (s : Sys) : Sys :=
  if e.faults.stLrange then s
  else
    let recent_messages := s.chat_history.take 4
    if e.faults.stDelete then s
    else
      let rebuilt := recent_messages.reverse
      match e.faults.stRpush with
      | some k =>
          if k < rebuilt.length then { s with short_term := rebuilt.take k } else { s with short_term := rebuilt }
      | none => { s with short_term := rebuilt }

/-- memory_manager._generate_slider_summary (lines 111-154): lrange 4 -1 of
the chat buffer; if empty, return; format oldest-first as role: content
lines; call the LLM; strip and set the summary key.  Body wrapped in
try/except that swallows.  Second component: the formatted windows of the
LLM calls that were issued (at most one). -/
def generate_slider_summary (e : Env) (s : Sys) : Sys × List (List String) :=
  if e.faults.slLrange then (s, [])
  else
    let older_messages := s.chat_history.drop 4
    if older_messages.isEmpty then (s, [])
    else
      let conversation_text := older_messages.reverse.map formatTurn
      if conversation_text.isEmpty then (s, [])
      else
        match e.summarize (sliderPrompt conversation_text) with
        | none => (s, [conversation_text])
        | some resp =>
            let summary := pyStrip resp
            if e.faults.slSet then (s, [conversation_text])
            else ({ s with slider_summary := some summary }, [conversation_text])

/-- The while loop of memory_manager.py lines 207-208: append placeholder
points until there are 5.  Each pass grows the list by one, so fuel 5 is
enough for the loop to reach its exit condition from any start. -/
def padLoop : Nat → List String → List String
  | 0, points => points
  | n + 1, points =>
      if points.length < 5 then
        padLoop n (points ++ ["Context point " ++ toString (points.length + 1)])
      else points

/-- Character-level splitter behind pySplit. -/
def splitCharAux (sep : Char) : List Char → List Char → List String
  | [], acc => [String.mk acc.reverse]
  | c :: cs, acc =>
      if c == sep then String.mk acc.reverse :: splitCharAux sep cs []
      else splitCharAux sep cs (c :: acc)

/-- Python str.split(sep) for a one-character separator. -/
def pySplit (sep : Char) (s : String) : List String :=
  splitCharAux sep s.toList []

/-- Python str.startswith(pre). -/
def pyStartsWith (pre s : String) : Bool :=
  pre.toList.isPrefixOf s.toList

/-- Python s[n:]: drop the first n characters. -/
def pyDrop (n : Nat) (s : String) : String :=
  String.mk (s.toList.drop n)

/-- memory_manager.py lines 199-209: keep the stripped lines that start
with a dash-space or bullet-space marker, take the text after the marker,
pad with placeholders to 5, truncate to 5. -/
def extract_points (content : String) : List String :=
  let points := (pySplit '\n' content).foldl
    (fun points line =>
      let l := pyStrip line
      if pyStartsWith "- " l || pyStartsWith "• " l then points ++ [pyStrip (pyDrop 2 l)]
      else points) []
  (padLoop 5 points).take 5

/-- memory_manager._generate_long_term_memory (lines 156-227): lrange 0 7
of the chat buffer; if empty, return; format oldest-first; call the LLM;
parse into exactly 5 points; rpush each point to the user-scoped Redis
long-term list; insert one batch document into MongoDB.  Body wrapped in
try/except that swallows.  Second component: the formatted windows of the
LLM calls that were issued. -/
def generate_long_term_memory (e : Env) (s : Sys) : Sys × List (List String) :=
  if e.faults.ltLrange then (s, [])
  else
    let recent_messages := s.chat_history.take 8
    if recent_messages.isEmpty then (s, [])
    else
      let conversation_text := recent_messages.reverse.map formatTurn
      if conversation_text.isEmpty then (s, [])
      else
        match e.extract (longTermPrompt conversation_text) with
        | none => (s, [conversation_text])
        | some resp =>
            let points := extract_points (pyStrip resp)
            let pushed := rpushAll e.faults.ltRpush s.long_term points
            let s1 := { s with long_term := pushed.1 }
            if pushed.2 then (s1, [conversation_text])
            else if e.faults.ltMongoInsert then (s1, [conversation_text])
            else ({ s1 with mongo_long := s1.mongo_long ++ [points] }, [conversation_text])

/-- Result of one add_message call: final state, whether the call raised to
its caller, and the formatted windows of the summarizer and extractor calls
issued during the triggered escalations. -/
structure IngestResult where
  state : Sys
  raised : Bool
  summarizeCalls : List (List String)
  extractCalls : List (List String)
deriving DecidableEq

/-- memory_manager.add_message (lines 48-92): insert into the MongoDB chat
log, lpush to the Redis buffer, ltrim to indexes 0-7, rebuild short-term
memory, incr the message counter, and on count mod 4 = 0 or count mod 8 = 0
run the escalations.  The body sits in one try/except which logs and then
re-raises, so any raise reaching it propagates with the state mutated so
far kept; only the helper steps swallow internally. -/
def add_message (e : Env) (s : Sys) (t : Turn) : IngestResult :=
  if e.faults.mongoInsertChat then ⟨s, true, [], []⟩
  else
    let s1 := { s with mongo_chat := s.mongo_chat ++ [t] }
    if e.faults.lpushChat then ⟨s1, true, [], []⟩
    else
      let s2 := { s1 with chat_history := t :: s1.chat_history }
      if e.faults.ltrimChat then ⟨s2, true, [], []⟩
      else
        let s3 := { s2 with chat_history := s2.chat_history.take 8 }
        let s4 := update_short_term_memory e s3
        if e.faults.countIncr then ⟨s4, true, [], []⟩
        else
          let s5 := { s4 with message_count := s4.message_count + 1 }
          let count := s5.message_count
          let s6 := if count % 4 == 0 then (generate_slider_summary e s5).1 else s5
          let sc := if count % 4 == 0 then (generate_slider_summary e s5).2 else []
          let s7 := if count % 8 == 0 then (generate_long_term_memory e s6).1 else s6
          let ec := if count % 8 == 0 then (generate_long_term_memory e s6).2 else []
          ⟨s7, false, sc, ec⟩

/-- The all-empty context dictionary of memory_manager.py lines 232-237 and
269-274. -/
structure ContextDict where
  short_term_messages : List Turn
  slider_summary : String
  long_term_points : List String
  recent_history : List Turn
deriving DecidableEq

/-- The empty default context, returned both initially and by the except
branch of get_context_for_search. -/
def emptyContext : ContextDict :=
  { short_term_messages := [], slider_summary := "", long_term_points := [], recent_history := [] }

/-- memory_manager.get_context_for_search (lines 229-274): read the four
regions in order inside one try; any raise jumps to the single except
branch, which returns the all-empty dictionary. -/
def get_context_for_search (e : Env) (s : Sys) : ContextDict :=
  if e.faults.ctxShortLrange then emptyContext
  else
    let stm := s.short_term
    if e.faults.ctxSummaryGet then emptyContext
    else
      let summ := s.slider_summary.getD ""
      if e.faults.ctxLongLrange then emptyContext
      else
        let ltp := s.long_term
        if e.faults.ctxChatLrange then emptyContext
        else
          { short_term_messages := stm, slider_summary := summ,
            long_term_points := ltp,
            recent_history := (s.chat_history.take 8).reverse }

/-- memory_manager.save_short_term_on_logout (lines 276-309): read the
short-term list and the summary; if either is non-empty (Python truthiness
of list or string), upsert the snapshot row.  Body wrapped in try/except
that swallows, so an upsert raise leaves the snapshot unchanged and
propagates nothing. -/
def save_short_term_on_logout (e : Env) (s : Sys) : Sys :=
  if e.faults.saveLrange then s
  else
    let messages := s.short_term
    if e.faults.saveSummaryGet then s
    else
      let slider_summary := s.slider_summary.getD ""
      if messages.isEmpty && slider_summary == "" then s
      else if e.faults.saveUpsert then s
      else { s with mongo_snapshot := some (messages, slider_summary) }

/-- memory_manager.load_short_term_on_login (lines 311-335): find the
snapshot row; if none, no-op; else delete the short-term key, rpush the
snapshot messages in order, and set the summary key when the snapshot
summary is non-empty.  Body wrapped in try/except that swallows. -/
def load_short_term_on_login (e : Env) (s : Sys) : Sys :=
  if e.faults.loginFind then s
  else
    match s.mongo_snapshot with
    | none => s
    | some (msgs, summ) =>
        if e.faults.loginDelete then s
        else
          match e.faults.loginRpush with
          | some k =>
              if k < msgs.length then { s with short_term := msgs.take k }
              else
                let s1 := { s with short_term := msgs }
                if summ == "" then s1
                else if e.faults.loginSet then s1
                else { s1 with slider_summary := some summ }
          | none =>
              let s1 := { s with short_term := msgs }
              if summ == "" then s1
              else if e.faults.loginSet then s1
              else { s1 with slider_summary := some summ }

/-- memory_manager.clear_redis_on_logout (lines 337-353): delete the four
conversation-scoped keys in order (short_term, slider_summary,
chat_history, message_count); the loop sits in one try/except, so a raise
at delete index k leaves the later keys untouched and propagates
nothing.  The user-scoped long_term key is not in the list. -/
def clear_redis_on_logout (e : Env) (s : Sys) : Sys :=
  let stop := e.faults.clearFailAt.getD 4
  let s1 := if 0 < stop then { s with short_term := [] } else s
  let s2 := if 1 < stop then { s1 with slider_summary := none } else s1
  let s3 := if 2 < stop then { s2 with chat_history := [] } else s2
  if 3 < stop then { s3 with message_count := 0 } else s3

/-- main.logout_endpoint (main.py lines 107-135): save the short-term
snapshot, then clear the Redis keys; both helpers swallow their own
errors, so the endpoint replies success. -/
def logout_endpoint (e : Env) (s : Sys) : Sys × String :=
  let s1 := save_short_term_on_logout e s
  let s2 := clear_redis_on_logout e s1
  (s2, "success")

/-- The apology reply built in agent.py line 437. -/
def errorReply (errText : String) : String :=
  "I apologize, but I encountered an error: " ++ errText

/-- agent.process_conversation (agent.py lines 405-446): add the user
message to memory, run the agent (agentResult none models the agent
raising), add the assistant reply to memory, return it.  Any raise is
caught; the apology reply is built, an attempt is made to store it (its own
failure ignored by a bare except), and the apology is returned.  The three
environments model the three distinct add_message call sites. -/
def process_conversation (e1 e2 e3 : Env) (agentResult : Option String)
    (errText : String) (s : Sys) (userMsg : Turn) (now : Nat) : Sys × String :=
  let r1 := add_message e1 s userMsg
  if r1.raised then
    let msg := errorReply errText
    let r3 := add_message e3 r1.state { role := "assistant", content := msg, timestamp := now }
    (r3.state, msg)
  else
    match agentResult with
    | none =>
        let msg := errorReply errText
        let r3 := add_message e3 r1.state { role := "assistant", content := msg, timestamp := now }
        (r3.state, msg)
    | some resp =>
        let r2 := add_message e2 r1.state { role := "assistant", content := resp, timestamp := now }
        if r2.raised then
          let msg := errorReply errText
          let r3 := add_message e3 r2.state { role := "assistant", content := msg, timestamp := now }
          (r3.state, msg)
        else (r2.state, resp)

/-- A conversation that has never been used: all Redis keys absent, all
MongoDB collections empty. -/
def freshSys : Sys :=
  { chat_history := [], short_term := [], slider_summary := none,
    long_term := [], message_count := 0,
    mongo_chat := [], mongo_long := [], mongo_snapshot := none }

/-- Sequential ingestion of a list of turns (oldest first), collecting the
summarizer and extractor call windows in order. -/
def ingestList (e : Env) (s : Sys) : List Turn → Sys × List (List String) × List (List String)
  | [] => (s, [], [])
  | t :: ts =>
      let r := add_message e s t
      let rest := ingestList e r.state ts
      (rest.1, r.summarizeCalls ++ rest.2.1, r.extractCalls ++ rest.2.2)

/-- The operations the orchestrator exposes on one conversation, in their
fault-free form (collaborators may still be arbitrary). -/
inductive MemOp where
  | ingest (su ex : String → String) (t : Turn)
  | readContext
  | saveLogout
  | clearLogout
  | login

/-- Apply one fault-free operation to the state. -/
def applyOp (s : Sys) : MemOp → Sys
  | .ingest su ex t => (add_message (okEnv su ex) s t).state
  | .readContext => s
  | .saveLogout => save_short_term_on_logout (okEnv id id) s
  | .clearLogout => clear_redis_on_logout (okEnv id id) s
  | .login => load_short_term_on_login (okEnv id id) s

/-- Run a list of fault-free operations from a state. -/
def runOps (s : Sys) : List MemOp → Sys
  | [] => s
  | op :: ops => runOps (applyOp s op) ops

lemma take_append_take {α : Type} (a b : List α) (m n : Nat) (h : m ≤ n) :
    (a ++ b.take n).take m = (a ++ b).take m := by
  rw [List.take_append_eq_append_take, List.take_append_eq_append_take, List.take_take]
  have hmin : min (m - a.length) n = m - a.length :=
    Nat.min_eq_left (le_trans (Nat.sub_le m a.length) h)
  rw [hmin]

lemma reverse_take_reverse {α : Type} (l : List α) (n : Nat) :
    (l.reverse.take n).reverse = l.drop (l.length - n) := by
  rw [← List.rtake_eq_reverse_take_reverse, List.rtake]

lemma ust_shape (e : Env) (s : Sys) :
    ∃ w, update_short_term_memory e s = { s with short_term := w } := by
  simp only [update_short_term_memory]
  repeat' split
  all_goals exact ⟨_, rfl⟩

lemma gss_shape (e : Env) (s : Sys) :
    ∃ o, (generate_slider_summary e s).1 = { s with slider_summary := o } := by
  simp only [generate_slider_summary]
  repeat' split
  all_goals exact ⟨_, rfl⟩

lemma gltm_shape (e : Env) (s : Sys) :
    ∃ lt ml, (generate_long_term_memory e s).1 =
      { s with long_term := lt, mongo_long := ml } := by
  simp only [generate_long_term_memory]
  repeat' split
  all_goals exact ⟨_, _, rfl⟩

lemma gss_chat_history (e : Env) (s : Sys) :
    (generate_slider_summary e s).1.chat_history = s.chat_history := by
  obtain ⟨o, h⟩ := gss_shape e s; rw [h]

lemma gss_short_term (e : Env) (s : Sys) :
    (generate_slider_summary e s).1.short_term = s.short_term := by
  obtain ⟨o, h⟩ := gss_shape e s; rw [h]

lemma gss_message_count (e : Env) (s : Sys) :
    (generate_slider_summary e s).1.message_count = s.message_count := by
  obtain ⟨o, h⟩ := gss_shape e s; rw [h]

lemma gss_mongo_chat (e : Env) (s : Sys) :
    (generate_slider_summary e s).1.mongo_chat = s.mongo_chat := by
  obtain ⟨o, h⟩ := gss_shape e s; rw [h]

lemma gltm_chat_history (e : Env) (s : Sys) :
    (generate_long_term_memory e s).1.chat_history = s.chat_history := by
  obtain ⟨lt, ml, h⟩ := gltm_shape e s; rw [h]

lemma gltm_short_term (e : Env) (s : Sys) :
    (generate_long_term_memory e s).1.short_term = s.short_term := by
  obtain ⟨lt, ml, h⟩ := gltm_shape e s; rw [h]

lemma gltm_message_count (e : Env) (s : Sys) :
    (generate_long_term_memory e s).1.message_count = s.message_count := by
  obtain ⟨lt, ml, h⟩ := gltm_shape e s; rw [h]

lemma gltm_mongo_chat (e : Env) (s : Sys) :
    (generate_long_term_memory e s).1.mongo_chat = s.mongo_chat := by
  obtain ⟨lt, ml, h⟩ := gltm_shape e s; rw [h]

lemma ust_ok (su ex : String → String) (s : Sys) :
    update_short_term_memory (okEnv su ex) s =
      { s with short_term := (s.chat_history.take 4).reverse } := rfl

lemma add_message_ok (su ex : String → String) (s : Sys) (t : Turn) :
    (add_message (okEnv su ex) s t).raised = false ∧
    (add_message (okEnv su ex) s t).state.chat_history = (t :: s.chat_history).take 8 ∧
    (add_message (okEnv su ex) s t).state.short_term = ((t :: s.chat_history).take 4).reverse ∧
    (add_message (okEnv su ex) s t).state.message_count = s.message_count + 1 ∧
    (add_message (okEnv su ex) s t).state.mongo_chat = s.mongo_chat ++ [t] := by
  cases h4 : (s.message_count + 1) % 4 == 0 <;>
    cases h8 : (s.message_count + 1) % 8 == 0 <;>
      simp [add_message, okEnv, update_short_term_memory, h4, h8,
        gss_chat_history, gss_short_term, gss_message_count, gss_mongo_chat,
        gltm_chat_history, gltm_short_term, gltm_message_count, gltm_mongo_chat,
        List.take_take]

lemma ingestList_chat (su ex : String → String) (ts : List Turn) :
    ∀ s : Sys, s.chat_history.length ≤ 8 →
      (ingestList (okEnv su ex) s ts).1.chat_history = (ts.reverse ++ s.chat_history).take 8 := by
  induction ts with
  | nil =>
      intro s h
      simpa [ingestList] using (List.take_of_length_le h).symm
  | cons t ts ih =>
      intro s h
      obtain ⟨hr, hchat, hst, hcount, hmongo⟩ := add_message_ok su ex s t
      have hlen : (add_message (okEnv su ex) s t).state.chat_history.length ≤ 8 := by
        rw [hchat, List.length_take]; omega
      simp only [ingestList]
      rw [ih _ hlen, hchat, take_append_take _ _ 8 8 le_rfl]
      simp

lemma ingestList_count (su ex : String → String) (ts : List Turn) :
    ∀ s : Sys, (ingestList (okEnv su ex) s ts).1.message_count = s.message_count + ts.length := by
  induction ts with
  | nil => intro s; simp [ingestList]
  | cons t ts ih =>
      intro s
      obtain ⟨hr, hchat, hst, hcount, hmongo⟩ := add_message_ok su ex s t
      simp only [ingestList]
      rw [ih, hcount]
      simp [Nat.add_assoc, Nat.add_comm 1 ts.length]

lemma ingestList_mongo_chat (su ex : String → String) (ts : List Turn) :
    ∀ s : Sys, (ingestList (okEnv su ex) s ts).1.mongo_chat = s.mongo_chat ++ ts := by
  induction ts with
  | nil => intro s; simp [ingestList]
  | cons t ts ih =>
      intro s
      obtain ⟨hr, hchat, hst, hcount, hmongo⟩ := add_message_ok su ex s t
      simp only [ingestList]
      rw [ih, hmongo]
      simp

lemma ingestList_fst_cons (e : Env) (s : Sys) (t : Turn) (ts : List Turn) :
    (ingestList e s (t :: ts)).1 = (ingestList e (add_message e s t).state ts).1 := rfl

lemma ingestList_short (su ex : String → String) (ts : List Turn) :
    ∀ s : Sys, ts ≠ [] → s.chat_history.length ≤ 8 →
      (ingestList (okEnv su ex) s ts).1.short_term =
        ((ts.reverse ++ s.chat_history).take 4).reverse := by
  induction ts with
  | nil => intro s h; exact absurd rfl h
  | cons t ts ih =>
      intro s _ h
      obtain ⟨hr, hchat, hst, hcount, hmongo⟩ := add_message_ok su ex s t
      have hlen : (add_message (okEnv su ex) s t).state.chat_history.length ≤ 8 := by
        rw [hchat, List.length_take]; omega
      rw [ingestList_fst_cons]
      by_cases hts : ts = []
      · subst hts
        show (add_message (okEnv su ex) s t).state.short_term = _
        rw [hst]
        simp
      · rw [ih _ hts hlen, hchat, take_append_take _ _ 4 8 (by omega)]
        simp

lemma save_shape (e : Env) (s : Sys) :
    ∃ o, save_short_term_on_logout e s = { s with mongo_snapshot := o } := by
  simp only [save_short_term_on_logout]
  repeat' split
  all_goals exact ⟨_, rfl⟩

lemma login_shape (e : Env) (s : Sys) :
    ∃ w o, load_short_term_on_login e s = { s with short_term := w, slider_summary := o } := by
  simp only [load_short_term_on_login]
  repeat' split
  all_goals exact ⟨_, _, rfl⟩

lemma save_ok (e : Env) (hf : e.faults = {}) (s : Sys) :
    save_short_term_on_logout e s =
      if s.short_term.isEmpty && (s.slider_summary.getD "" == "") then s
      else { s with mongo_snapshot := some (s.short_term, s.slider_summary.getD "") } := by
  simp [save_short_term_on_logout, hf]

lemma clear_ok (e : Env) (hf : e.faults = {}) (s : Sys) :
    clear_redis_on_logout e s =
      { s with short_term := [], slider_summary := none,
               chat_history := [], message_count := 0 } := by
  simp [clear_redis_on_logout, hf]

lemma load_ok (e : Env) (hf : e.faults = {}) (s : Sys) :
    load_short_term_on_login e s =
      match s.mongo_snapshot with
      | none => s
      | some (msgs, summ) =>
          if summ == "" then { s with short_term := msgs }
          else { s with short_term := msgs, slider_summary := some summ } := by
  rcases hm : s.mongo_snapshot with _ | ⟨msgs, summ⟩ <;>
    simp [load_short_term_on_login, hf, hm]

lemma padLoop_len : ∀ (n : Nat) (ps : List String),
    5 ≤ ps.length + n → 5 ≤ (padLoop n ps).length
  | 0, ps, h => by simpa [padLoop] using h
  | n + 1, ps, h => by
      simp only [padLoop]
      split
      · exact padLoop_len n _ (by simp; omega)
      · omega

lemma extract_points_len (content : String) : (extract_points content).length = 5 := by
  simp only [extract_points, List.length_take]
  exact Nat.min_eq_left (padLoop_len 5 _ (by omega))

/-- A concrete sample turn: user for odd indexes, assistant for even. -/
def sampleTurn (i : Nat) : Turn :=
  { role := if i % 2 == 1 then "user" else "assistant",
    content := "m" ++ toString i, timestamp := i }

/-- Eight sample turns, alternating user and assistant. -/
def sampleTurns : List Turn :=
  [sampleTurn 1, sampleTurn 2, sampleTurn 3, sampleTurn 4,
   sampleTurn 5, sampleTurn 6, sampleTurn 7, sampleTurn 8]

/-- Environment whose collaborator calls all raise and whose stores work. -/
def plainEnv : Env :=
  { summarize := fun _ => none, extract := fun _ => none }

/-- Environment where only the MongoDB chat-log insert fails. -/
def failMongoEnv : Env :=
  { summarize := fun _ => none, extract := fun _ => none,
    faults := { mongoInsertChat := true } }

/-- Environment where only the Redis lpush of the chat buffer fails. -/
def failLpushEnv : Env :=
  { summarize := fun _ => none, extract := fun _ => none,
    faults := { lpushChat := true } }

/-- Environment where only the read of the summary key inside
get_context_for_search fails. -/
def failCtxSummaryEnv : Env :=
  { summarize := fun _ => none, extract := fun _ => none,
    faults := { ctxSummaryGet := true } }

/-- Environment where only the snapshot upsert on logout fails. -/
def failUpsertEnv : Env :=
  { summarize := fun _ => none, extract := fun _ => none,
    faults := { saveUpsert := true } }

/-- A conversation state after one ingested turn. -/
def oneTurnState : Sys :=
  { chat_history := [sampleTurn 1], short_term := [sampleTurn 1],
    slider_summary := none, long_term := [], message_count := 1,
    mongo_chat := [sampleTurn 1], mongo_long := [], mongo_snapshot := none }

lemma applyOp_chat_le (s : Sys) (op : MemOp) (h : s.chat_history.length ≤ 8) :
    (applyOp s op).chat_history.length ≤ 8 := by
  cases op with
  | ingest su ex t =>
      obtain ⟨hr, hchat, hst, hcount, hmongo⟩ := add_message_ok su ex s t
      show (add_message (okEnv su ex) s t).state.chat_history.length ≤ 8
      rw [hchat, List.length_take]
      omega
  | readContext => exact h
  | saveLogout =>
      obtain ⟨o, ho⟩ := save_shape (okEnv id id) s
      show (save_short_term_on_logout (okEnv id id) s).chat_history.length ≤ 8
      rw [ho]
      exact h
  | clearLogout =>
      show (clear_redis_on_logout (okEnv id id) s).chat_history.length ≤ 8
      rw [clear_ok _ rfl]
      simp
  | login =>
      obtain ⟨w, o, ho⟩ := login_shape (okEnv id id) s
      show (load_short_term_on_login (okEnv id id) s).chat_history.length ≤ 8
      rw [ho]
      exact h

lemma runOps_chat_le (ops : List MemOp) :
    ∀ s : Sys, s.chat_history.length ≤ 8 → (runOps s ops).chat_history.length ≤ 8 := by
  induction ops with
  | nil => intro s h; exact h
  | cons op ops ih => intro s h; exact ih _ (applyOp_chat_le s op h)

/-- C1: After every ingestion into a conversation with N ingested turns, the
shortTermWindow region equals the 4 most recent turns (or all turns if N is
below 4), ordered oldest-first; it is recomputed wholesale from the recent
buffer on every ingestion (it equals the reversal of the first 4 buffer
entries of the post-ingestion state), and it never depends on its own prior
value (states differing only in short_term ingest to the same short_term). -/
theorem C1_short_term_window :
    (∀ (su ex : String → String) (ts : List Turn),
        (ingestList (okEnv su ex) freshSys ts).1.short_term =
          ts.drop (ts.length - 4)) ∧
    (∀ (su ex : String → String) (s : Sys) (t : Turn),
        (add_message (okEnv su ex) s t).state.short_term =
          ((add_message (okEnv su ex) s t).state.chat_history.take 4).reverse) ∧
    (∀ (su ex : String → String) (s : Sys) (t : Turn) (w : List Turn),
        (add_message (okEnv su ex) { s with short_term := w } t).state.short_term =
          (add_message (okEnv su ex) s t).state.short_term) := by
  refine ⟨?_, ?_, ?_⟩
  · intro su ex ts
    by_cases hts : ts = []
    · subst hts
      simp [ingestList, freshSys]
    · rw [ingestList_short su ex ts freshSys hts (by simp [freshSys])]
      show ((ts.reverse ++ ([] : List Turn)).take 4).reverse = _
      rw [List.append_nil, reverse_take_reverse]
  · intro su ex s t
    obtain ⟨hr, hchat, hst, hcount, hmongo⟩ := add_message_ok su ex s t
    rw [hst, hchat, List.take_take]
    norm_num
  · intro su ex s t w
    obtain ⟨hr1, hchat1, hst1, hcount1, hmongo1⟩ :=
      add_message_ok su ex { s with short_term := w } t
    obtain ⟨hr2, hchat2, hst2, hcount2, hmongo2⟩ := add_message_ok su ex s t
    rw [hst1, hst2]

/-- C2: For any sequence of N turns ingested into a fresh conversation, the
recent buffer holds exactly min(N,8) turns ordered newest-first (the
reversal of the ingestion order, truncated to 8), and its length stays at
most 8 after every operation sequence. -/
theorem C2_recent_buffer_bound :
    (∀ (su ex : String → String) (ts : List Turn),
        (ingestList (okEnv su ex) freshSys ts).1.chat_history = ts.reverse.take 8 ∧
        (ingestList (okEnv su ex) freshSys ts).1.chat_history.length = min ts.length 8) ∧
    (∀ ops : List MemOp, (runOps freshSys ops).chat_history.length ≤ 8) := by
  constructor
  · intro su ex ts
    have h := ingestList_chat su ex ts freshSys (by simp [freshSys])
    have h2 : (ingestList (okEnv su ex) freshSys ts).1.chat_history = ts.reverse.take 8 := by
      rw [h]
      show ((ts.reverse ++ ([] : List Turn)).take 8) = _
      rw [List.append_nil]
    refine ⟨h2, ?_⟩
    rw [h2, List.length_take, List.length_reverse, Nat.min_comm]
  · intro ops
    exact runOps_chat_le ops freshSys (by simp [freshSys])

/-- C3: messageCount after N ingestions into a fresh conversation equals
exactly N; each fault-free ingestion increments it by exactly one; the
logout save and the login load leave it unchanged; only the explicit Redis
clear on logout resets it to zero. -/
theorem C3_message_count :
    (∀ (su ex : String → String) (ts : List Turn),
        (ingestList (okEnv su ex) freshSys ts).1.message_count = ts.length) ∧
    (∀ (su ex : String → String) (s : Sys) (t : Turn),
        (add_message (okEnv su ex) s t).state.message_count = s.message_count + 1) ∧
    (∀ (e : Env) (s : Sys),
        (save_short_term_on_logout e s).message_count = s.message_count) ∧
    (∀ (e : Env) (s : Sys),
        (load_short_term_on_login e s).message_count = s.message_count) ∧
    (∀ (e : Env) (s : Sys), e.faults = {} →
        (clear_redis_on_logout e s).message_count = 0) := by
  refine ⟨?_, ?_, ?_, ?_, ?_⟩
  · intro su ex ts
    rw [ingestList_count su ex ts freshSys]
    simp [freshSys]
  · intro su ex s t
    exact (add_message_ok su ex s t).2.2.2.1
  · intro e s
    obtain ⟨o, ho⟩ := save_shape e s
    rw [ho]
  · intro e s
    obtain ⟨w, o, ho⟩ := login_shape e s
    rw [ho]
  · intro e s hf
    rw [clear_ok e hf]

/-- C4 counterexample: ingesting the 8 sample turns into a fresh
conversation issues exactly one summarizer call, but its input window is
turns 1-4 (the entries at buffer offsets 4..end, the turns older than the
short-term window), not turns 5-8 as the claim states. -/
theorem C4_counterexample :
    (ingestList (okEnv (fun _ => "S") (fun _ => "E")) freshSys sampleTurns).2.1 =
        [["user: m1", "assistant: m2", "user: m3", "assistant: m4"]] ∧
    (ingestList (okEnv (fun _ => "S") (fun _ => "E")) freshSys sampleTurns).2.1 ≠
        [["user: m5", "assistant: m6", "user: m7", "assistant: m8"]] := by
  constructor
  · decide
  · decide

/-- C4 (amended): when 8 turns are ingested sequentially into a fresh
conversation, exactly one summarizer call occurs and its input window is
turns 1-4 formatted oldest-first (the buffer entries at offsets 4..end),
exactly one long-term extraction call occurs with input turns 1-8 formatted
oldest-first, the durable chat log holds exactly the 8 turns, and the
slider escalation is a no-op issuing no call when the offsets-4..end range
of the buffer is empty. -/
theorem C4_eight_turn_scenario :
    (∀ (su ex : String → String) (a b c d p q r w : Turn),
        (ingestList (okEnv su ex) freshSys [a, b, c, d, p, q, r, w]).2.1 =
            [[formatTurn a, formatTurn b, formatTurn c, formatTurn d]] ∧
        (ingestList (okEnv su ex) freshSys [a, b, c, d, p, q, r, w]).2.2 =
            [[formatTurn a, formatTurn b, formatTurn c, formatTurn d,
              formatTurn p, formatTurn q, formatTurn r, formatTurn w]] ∧
        (ingestList (okEnv su ex) freshSys [a, b, c, d, p, q, r, w]).1.mongo_chat =
            [a, b, c, d, p, q, r, w]) ∧
    (∀ (e : Env) (s : Sys), s.chat_history.drop 4 = [] →
        generate_slider_summary e s = (s, [])) := by
  constructor
  · intro su ex a b c d p q r w
    refine ⟨?_, ?_, ?_⟩ <;>
      simp [ingestList, add_message, okEnv, update_short_term_memory,
        generate_slider_summary, generate_long_term_memory, rpushAll, freshSys]
  · intro e s h
    simp only [generate_slider_summary, h]
    split <;> simp

theorem C4_eight_turn_scenario_witness :
    (ingestList (okEnv (fun _ => "S") (fun _ => "E")) freshSys sampleTurns).2.2 =
        [["user: m1", "assistant: m2", "user: m3", "assistant: m4",
          "user: m5", "assistant: m6", "user: m7", "assistant: m8"]] ∧
    generate_slider_summary plainEnv freshSys = (freshSys, []) := by
  constructor
  · have h := (C4_eight_turn_scenario.1 (fun _ => "S") (fun _ => "E")
      (sampleTurn 1) (sampleTurn 2) (sampleTurn 3) (sampleTurn 4)
      (sampleTurn 5) (sampleTurn 6) (sampleTurn 7) (sampleTurn 8)).2.1
    exact h.trans (by decide)
  · exact C4_eight_turn_scenario.2 plainEnv freshSys rfl

/-- C5: if the durable chat-log insert fails during ingest, add_message
raises to its caller and the turn is not recorded: the whole state
(every hot-tier region and every durable collection) is exactly the state
before the call, and no escalation call was issued. -/
theorem C5_chat_log_failure_aborts (e : Env) (s : Sys) (t : Turn)
    (h : e.faults.mongoInsertChat = true) :
    add_message e s t = ⟨s, true, [], []⟩ := by
  simp [add_message, h]

theorem C5_chat_log_failure_aborts_witness :
    add_message failMongoEnv oneTurnState (sampleTurn 2) = ⟨oneTurnState, true, [], []⟩ :=
  C5_chat_log_failure_aborts failMongoEnv oneTurnState (sampleTurn 2) rfl

/-- C6 counterexample: an environment whose only fault is the Redis lpush
of the chat buffer (a volatile-tier step; the durable chat-log append
succeeds) makes add_message raise to its caller, so a HotStore failure in
the buffer-push step is propagated, not swallowed. -/
theorem C6_counterexample :
    failLpushEnv.faults.mongoInsertChat = false ∧
    (add_message failLpushEnv freshSys (sampleTurn 1)).raised = true := by
  constructor
  · rfl
  · rfl

/-- C6 (amended): add_message raises exactly when the durable chat-log
insert, the buffer lpush, the buffer ltrim, or the counter incr fails;
failures inside the short-term rebuild and inside the two escalations
(including collaborator failures) are swallowed.  The top-level
process_conversation absorbs even the propagated raises: whenever
add_message on the user turn raises, it still returns the apology reply
string to its caller. -/
theorem C6_hot_store_error_propagation :
    (∀ (e : Env) (s : Sys) (t : Turn),
        (add_message e s t).raised =
          (e.faults.mongoInsertChat || e.faults.lpushChat ||
            e.faults.ltrimChat || e.faults.countIncr)) ∧
    (∀ (e1 e2 e3 : Env) (ar : Option String) (et : String) (s : Sys)
        (u : Turn) (n : Nat),
        (add_message e1 s u).raised = true →
          (process_conversation e1 e2 e3 ar et s u n).2 = errorReply et) := by
  constructor
  · intro e s t
    cases h1 : e.faults.mongoInsertChat <;>
      cases h2 : e.faults.lpushChat <;>
        cases h3 : e.faults.ltrimChat <;>
          cases h4 : e.faults.countIncr <;>
            simp [add_message, h1, h2, h3, h4]
  · intro e1 e2 e3 ar et s u n h
    simp [process_conversation, h]

theorem C6_hot_store_error_propagation_witness :
    (process_conversation failLpushEnv plainEnv plainEnv (some "reply") "redis down"
        freshSys (sampleTurn 1) 9).2 = errorReply "redis down" :=
  C6_hot_store_error_propagation.2 failLpushEnv plainEnv plainEnv (some "reply")
    "redis down" freshSys (sampleTurn 1) 9 rfl

/-- C7: whenever the extractor call returns text during long-term
escalation (modelled by an environment whose extract function returns some
text) and the window is non-empty, the parsed point list has exactly 5
elements (bullet lines kept, placeholder-padded, truncated), and this exact
list is appended to the hot long-term list and inserted as one new durable
batch. -/
theorem C7_five_point_batches :
    (∀ content : String, (extract_points content).length = 5) ∧
    (∀ (su : String → String) (resp : String) (s : Sys),
        s.chat_history ≠ [] →
          generate_long_term_memory
              { summarize := fun p => some (su p), extract := fun _ => some resp } s =
            ({ s with
                long_term := s.long_term ++ extract_points (pyStrip resp),
                mongo_long := s.mongo_long ++ [extract_points (pyStrip resp)] },
             [(s.chat_history.take 8).reverse.map formatTurn])) := by
  constructor
  · exact extract_points_len
  · intro su resp s h
    cases hc : s.chat_history with
    | nil => exact absurd hc h
    | cons x xs =>
        simp [generate_long_term_memory, hc, rpushAll]

theorem C7_five_point_batches_witness :
    (extract_points "- alpha\n- beta").length = 5 ∧
    generate_long_term_memory
        { summarize := fun p => some p, extract := fun _ => some "- alpha\n- beta" }
        { freshSys with chat_history := [sampleTurn 1] } =
      ({ freshSys with
          chat_history := [sampleTurn 1],
          long_term := ["alpha", "beta", "Context point 3", "Context point 4",
            "Context point 5"],
          mongo_long := [["alpha", "beta", "Context point 3", "Context point 4",
            "Context point 5"]] },
       [["user: m1"]]) := by
  constructor
  · exact C7_five_point_batches.1 "- alpha\n- beta"
  · have h := C7_five_point_batches.2 (fun p => p) "- alpha\n- beta"
      { freshSys with chat_history := [sampleTurn 1] } (by simp)
    exact h.trans (by decide)

/-- The logout endpoint body followed by the login endpoint body on the
same (user_id, conversation_id): save the snapshot, clear the Redis keys,
then load the snapshot back. -/
def logoutThenLogin (e : Env) (s : Sys) : Sys :=
  load_short_term_on_login e (clear_redis_on_logout e (save_short_term_on_logout e s))

/-- C8 counterexample: logout clears the Redis chat buffer and message
counter, so after a fault-free logout plus login from a one-turn state the
recent buffer is empty and the counter is zero, while the claim asserts
both are unaffected by logout/login. -/
theorem C8_counterexample :
    (logoutThenLogin plainEnv oneTurnState).chat_history = [] ∧
    oneTurnState.chat_history ≠ [] ∧
    (logoutThenLogin plainEnv oneTurnState).message_count = 0 ∧
    oneTurnState.message_count = 1 := by
  refine ⟨by decide, by decide, by decide, by decide⟩

lemma logoutThenLogin_frame (e : Env) (hf : e.faults = {}) (s : Sys) :
    (logoutThenLogin e s).long_term = s.long_term ∧
    (logoutThenLogin e s).chat_history = [] ∧
    (logoutThenLogin e s).message_count = 0 ∧
    (logoutThenLogin e s).mongo_chat = s.mongo_chat ∧
    (logoutThenLogin e s).mongo_long = s.mongo_long := by
  obtain ⟨o, hs⟩ := save_shape e s
  obtain ⟨w, o2, hl⟩ :=
    login_shape e (clear_redis_on_logout e (save_short_term_on_logout e s))
  unfold logoutThenLogin
  rw [hl, clear_ok e hf, hs]
  simp

lemma logoutThenLogin_restore (e : Env) (hf : e.faults = {}) (s : Sys)
    (hyp : s.short_term ≠ [] ∨ s.slider_summary.getD "" ≠ "") :
    (logoutThenLogin e s).short_term = s.short_term ∧
    (logoutThenLogin e s).slider_summary.getD "" = s.slider_summary.getD "" := by
  have hni : (s.short_term.isEmpty && (s.slider_summary.getD "" == "")) = false := by
    rcases hyp with h1 | h2
    · have h1e : s.short_term.isEmpty = false := by
        cases hse : s.short_term with
        | nil => exact absurd hse h1
        | cons x xs => rfl
      simp [h1e]
    · have h2e : (s.slider_summary.getD "" == "") = false := by
        simpa using h2
      simp [h2e]
  unfold logoutThenLogin
  rw [save_ok e hf s, if_neg (by simp [hni]), clear_ok e hf, load_ok e hf]
  by_cases hb : (s.slider_summary.getD "" == "") = true
  · have hbe : s.slider_summary.getD "" = "" := by simpa using hb
    simp [hb, hbe]
  · have hbe : (s.slider_summary.getD "" == "") = false := by
      simpa using hb
    simp [hbe]

/-- C8 (amended): on a fault-free logout-then-login, whenever the
shortTermWindow or the summary was non-empty at logout time, both are
restored to exactly their logout-time values; the user-scoped longTerm list
and the durable collections are unaffected; but the recent buffer is
cleared to empty and the message counter to zero by the logout (they are
not preserved); login with no prior snapshot is a no-op. -/
theorem C8_logout_login_transfer :
    (∀ (e : Env) (s : Sys), e.faults = {} →
        (s.short_term ≠ [] ∨ s.slider_summary.getD "" ≠ "" →
            (logoutThenLogin e s).short_term = s.short_term ∧
            (logoutThenLogin e s).slider_summary.getD "" = s.slider_summary.getD "") ∧
        (logoutThenLogin e s).long_term = s.long_term ∧
        (logoutThenLogin e s).chat_history = [] ∧
        (logoutThenLogin e s).message_count = 0 ∧
        (logoutThenLogin e s).mongo_chat = s.mongo_chat ∧
        (logoutThenLogin e s).mongo_long = s.mongo_long) ∧
    (∀ (e : Env) (s : Sys), e.faults = {} → s.mongo_snapshot = none →
        load_short_term_on_login e s = s) := by
  constructor
  · intro e s hf
    obtain ⟨f1, f2, f3, f4, f5⟩ := logoutThenLogin_frame e hf s
    exact ⟨fun hyp => logoutThenLogin_restore e hf s hyp, f1, f2, f3, f4, f5⟩
  · intro e s hf hsnap
    rw [load_ok e hf, hsnap]

theorem C8_logout_login_transfer_witness :
    (logoutThenLogin plainEnv oneTurnState).short_term = oneTurnState.short_term ∧
    load_short_term_on_login plainEnv freshSys = freshSys := by
  constructor
  · exact ((C8_logout_login_transfer.1 plainEnv oneTurnState rfl).1
      (Or.inl (by decide))).1
  · exact C8_logout_login_transfer.2 plainEnv freshSys rfl rfl

/-- C9 counterexample: with a state whose short-term region is non-empty
and an environment whose only fault is the summary-key read inside
get_context_for_search, the call returns the all-empty context: the
short_term_messages field does not return its read value, so a failure on
one region degrades every field, not only the failing one. -/
theorem C9_counterexample :
    get_context_for_search failCtxSummaryEnv oneTurnState = emptyContext ∧
    oneTurnState.short_term ≠ [] ∧
    failCtxSummaryEnv.faults.ctxShortLrange = false := by
  refine ⟨by decide, by decide, rfl⟩

/-- C9 (amended): get_context_for_search never fails (it always returns a
context dictionary), and a read failure on any individual region makes the
whole call return the all-empty default context; only when no region read
fails does each field return its read value. -/
theorem C9_context_degradation :
    (∀ (e : Env) (s : Sys),
        (e.faults.ctxShortLrange || e.faults.ctxSummaryGet ||
            e.faults.ctxLongLrange || e.faults.ctxChatLrange) = true →
          get_context_for_search e s = emptyContext) ∧
    (∀ (e : Env) (s : Sys),
        (e.faults.ctxShortLrange || e.faults.ctxSummaryGet ||
            e.faults.ctxLongLrange || e.faults.ctxChatLrange) = false →
          get_context_for_search e s =
            { short_term_messages := s.short_term,
              slider_summary := s.slider_summary.getD "",
              long_term_points := s.long_term,
              recent_history := (s.chat_history.take 8).reverse }) := by
  constructor
  · intro e s h
    cases h1 : e.faults.ctxShortLrange <;>
      cases h2 : e.faults.ctxSummaryGet <;>
        cases h3 : e.faults.ctxLongLrange <;>
          cases h4 : e.faults.ctxChatLrange <;>
            simp_all [get_context_for_search]
  · intro e s h
    simp only [Bool.or_eq_false_iff] at h
    obtain ⟨⟨⟨h1, h2⟩, h3⟩, h4⟩ := h
    simp [get_context_for_search, h1, h2, h3, h4]

theorem C9_context_degradation_witness :
    get_context_for_search failCtxSummaryEnv freshSys = emptyContext :=
  C9_context_degradation.1 failCtxSummaryEnv freshSys rfl

/-- C10: when the snapshot upsert on logout fails (and the reads before it
succeed), the failure is swallowed inside the save step, the clear still
deletes all four conversation-scoped hot keys, the durable snapshot keeps
its prior value, and the logout endpoint still replies success, so the
logout-time short-term window and summary are lost without any error
reaching the caller. -/
theorem C10_clear_despite_failed_snapshot (e : Env) (s : Sys)
    (h1 : e.faults.saveUpsert = true) (h2 : e.faults.saveLrange = false)
    (h3 : e.faults.saveSummaryGet = false) (h4 : e.faults.clearFailAt = none) :
    (logout_endpoint e s).2 = "success" ∧
    (logout_endpoint e s).1.mongo_snapshot = s.mongo_snapshot ∧
    (logout_endpoint e s).1.short_term = [] ∧
    (logout_endpoint e s).1.slider_summary = none ∧
    (logout_endpoint e s).1.chat_history = [] ∧
    (logout_endpoint e s).1.message_count = 0 := by
  have hs : save_short_term_on_logout e s = s := by
    simp only [save_short_term_on_logout, h1, h2, h3]
    split <;> simp
  unfold logout_endpoint
  rw [hs]
  simp [clear_redis_on_logout, h4]

theorem C10_clear_despite_failed_snapshot_witness :
    (logout_endpoint failUpsertEnv oneTurnState).2 = "success" ∧
    (logout_endpoint failUpsertEnv oneTurnState).1.mongo_snapshot = none ∧
    (logout_endpoint failUpsertEnv oneTurnState).1.short_term = [] := by
  obtain ⟨w1, w2, w3, _, _, _⟩ :=
    C10_clear_despite_failed_snapshot failUpsertEnv oneTurnState rfl rfl rfl rfl
  exact ⟨w1, w2.trans rfl, w3⟩

theorem C3_message_count_witness :
    (ingestList (okEnv id id) freshSys sampleTurns).1.message_count = 8 ∧
    (clear_redis_on_logout plainEnv oneTurnState).message_count = 0 := by
  constructor
  · exact (C3_message_count.1 id id sampleTurns).trans (by decide)
  · exact C3_message_count.2.2.2.2 plainEnv oneTurnState rfl
